import Mathlib

/-!
Verification development for the NFL game-stats crawler
(src/tools/nfl_crawler.py).  The Python source is shallowly embedded:
pure helpers become Lean functions, the HTML tree becomes an inductive
`Node` type with BeautifulSoup-style search semantics, and network
effects are threaded through an explicit `Env` oracle plus an effect
log.  Machine integers are `Int`/`Nat` (Python ints are unbounded, so
no modular arithmetic is needed).
-/

set_option maxRecDepth 4000

/-! ## Python string primitives -/

/-- Characters treated as whitespace by Python `str.strip` / `str.split`
(ASCII subset, which is all the crawler ever sees). -/
def isPyWs (c : Char) : Bool :=
  c = ' ' || c = '\t' || c = '\n' || c = '\r' || c = '\x0b' || c = '\x0c'

def isAsciiDigit (c : Char) : Bool := '0' ≤ c && c ≤ '9'

def digitVal (c : Char) : Nat := c.toNat - 48

/-- Python `str.strip()` on a character list. -/
def pyStripChars (l : List Char) : List Char :=
  ((l.dropWhile isPyWs).reverse.dropWhile isPyWs).reverse

/-- Python `str.strip()`. -/
def pyStrip (s : String) : String := String.mk (pyStripChars s.data)

/-- Python `str.lower()` (ASCII). -/
def pyLower (s : String) : String := String.mk (s.data.map Char.toLower)

/-- Tail of a Python integer literal: digits with single underscores
allowed between digits (`digitpart` of the Python grammar, after the
first digit has been consumed into `acc`). -/
def pyDigitsAux : Nat → List Char → Option Nat
  | acc, [] => some acc
  | acc, '_' :: rest =>
    match rest with
    | c :: rest2 => if isAsciiDigit c then pyDigitsAux (acc * 10 + digitVal c) rest2 else none
    | [] => none
  | acc, c :: rest => if isAsciiDigit c then pyDigitsAux (acc * 10 + digitVal c) rest else none

/-- A non-empty digit sequence (first char must be a digit). -/
def parseDigitsL : List Char → Option Nat
  | [] => none
  | c :: rest => if isAsciiDigit c then pyDigitsAux (digitVal c) rest else none

/-- Python `int(s)` on a string: strip whitespace, optional sign, then a
digit sequence; `none` models the `ValueError`. -/
def pyParseInt (s : String) : Option Int :=
  match pyStripChars s.data with
  | '+' :: rest => (parseDigitsL rest).map Int.ofNat
  | '-' :: rest => (parseDigitsL rest).map (fun n => -(Int.ofNat n))
  | l => (parseDigitsL l).map Int.ofNat

/-- Python `str.split()` with no argument: split on whitespace runs,
dropping empty fields. -/
def pySplitWsGo : List Char → List Char → List String
  | cur, [] => if cur.isEmpty then [] else [String.mk cur.reverse]
  | cur, c :: rest =>
    if isPyWs c then
      if cur.isEmpty then pySplitWsGo [] rest
      else String.mk cur.reverse :: pySplitWsGo [] rest
    else pySplitWsGo (c :: cur) rest

def pySplitWs (s : String) : List String := pySplitWsGo [] s.data

/-- Python `str.split(sep)` for a single-character separator: keeps
empty fields. -/
def splitOnCharGo (sep : Char) : List Char → List Char → List String
  | cur, [] => [String.mk cur.reverse]
  | cur, c :: rest =>
    if c = sep then String.mk cur.reverse :: splitOnCharGo sep [] rest
    else splitOnCharGo sep (c :: cur) rest

def pySplitOn (sep : Char) (s : String) : List String := splitOnCharGo sep [] s.data

/-- Python `s.replace(',', '')`. -/
def removeCommas (s : String) : String := String.mk (s.data.filter (fun c => c ≠ ','))

/-- Substring test (`needle in hay` for Python strings, and the literal
regular-expression patterns the crawler searches with). -/
def containsSubL (needle : List Char) : List Char → Bool
  | [] => needle.isEmpty
  | c :: rest => needle.isPrefixOf (c :: rest) || containsSubL needle rest

def containsSub (needle hay : String) : Bool := containsSubL needle.data hay.data

/-- Python `s.startswith(p)`. -/
def strStartsWith (p s : String) : Bool := p.data.isPrefixOf s.data

/-- Python `s.replace(old, '')` for a non-empty `old`, written with a
fuel argument (the length of `s`) so that the recursion is structural;
each step consumes at least one character, so the fuel never runs out
on the inputs the crawler feeds it. -/
def pyReplaceEmptyAux (old : List Char) : Nat → List Char → List Char
  | 0, _ => []
  | _, [] => []
  | fuel + 1, c :: rest =>
    if old.isPrefixOf (c :: rest) then pyReplaceEmptyAux old fuel (List.drop (old.length - 1) rest)
    else c :: pyReplaceEmptyAux old fuel rest

def pyReplaceEmpty (old s : String) : String :=
  String.mk (pyReplaceEmptyAux old.data s.data.length s.data)

/-- `' '.join(parts)`. -/
def joinSpace : List String → String
  | [] => ""
  | [s] => s
  | s :: rest => s ++ " " ++ joinSpace rest

/-- Python truthiness of an optional string (`None` and `""` are falsy). -/
def pyFalsyOptStr : Option String → Bool
  | none => true
  | some s => s == ""

/-- Python `str.isdigit()` (ASCII digits, non-empty). -/
def pyIsDigitStr (s : String) : Bool := !s.data.isEmpty && s.data.all isAsciiDigit

/-! ## Date parsing (`datetime.strptime` with formats `%b %d, %Y` and
`%B %d, %Y`, then `strftime('%Y-%m-%d')`) -/

/-- Lower-cased month abbreviations (the `%b` alternation). -/
def monthAbbrs : List String :=
  ["jan", "feb", "mar", "apr", "may", "jun", "jul", "aug", "sep", "oct", "nov", "dec"]

/-- Lower-cased full month names (the `%B` alternation). -/
def monthNamesFull : List String :=
  ["january", "february", "march", "april", "may", "june",
   "july", "august", "september", "october", "november", "december"]

/-- Match one month name (case already folded) at the head of the input,
returning the 1-based month number and the rest of the input. -/
def matchMonthGo : Nat → List String → List Char → Option (Nat × List Char)
  | _, [], _ => none
  | idx, nm :: rest, s =>
    if nm.data.isPrefixOf s then some (idx + 1, List.drop nm.length s)
    else matchMonthGo (idx + 1) rest s

/-- `\s+` of the compiled strptime pattern: at least one whitespace
character, then as many as follow. -/
def skipWs1 : List Char → Option (List Char)
  | c :: rest => if isPyWs c then some (rest.dropWhile isPyWs) else none
  | [] => none

/-- The `%d` directive compiles to the alternation
`3[01]|[12]\d|0[1-9]|[1-9]`; all alternatives are produced in order so
the caller can backtrack into the rest of the pattern. -/
def dayCandidates (s : List Char) : List (Nat × List Char) :=
  (match s with
   | '3' :: '0' :: rest => [(30, rest)]
   | '3' :: '1' :: rest => [(31, rest)]
   | _ => []) ++
  (match s with
   | c1 :: c2 :: rest =>
     if (c1 = '1' || c1 = '2') && isAsciiDigit c2 then [(digitVal c1 * 10 + digitVal c2, rest)]
     else []
   | _ => []) ++
  (match s with
   | '0' :: c2 :: rest => if '1' ≤ c2 && c2 ≤ '9' then [(digitVal c2, rest)] else []
   | _ => []) ++
  (match s with
   | c1 :: rest => if '1' ≤ c1 && c1 ≤ '9' then [(digitVal c1, rest)] else []
   | _ => [])

/-- After the day: a literal comma, `\s+`, then exactly four digits and
the end of the string (strptime rejects unconverted trailing data). -/
def parseCommaYear : List Char → Option Nat
  | ',' :: rest =>
    match skipWs1 rest with
    | none => none
    | some rest2 =>
      match rest2 with
      | [a, b, c, d] =>
        if isAsciiDigit a && isAsciiDigit b && isAsciiDigit c && isAsciiDigit d then
          some (digitVal a * 1000 + digitVal b * 100 + digitVal c * 10 + digitVal d)
        else none
      | _ => none
  | _ => none

def tryDayCandidates (m : Nat) : List (Nat × List Char) → Option (Nat × Nat × Nat)
  | [] => none
  | (d, rest) :: more =>
    match parseCommaYear rest with
    | some y => some (y, m, d)
    | none => tryDayCandidates m more

/-- Run the regex built by strptime for `"<month> %d, %Y"` against the
whole (case-folded, as the compiled pattern is IGNORECASE) input. -/
def strptimeMonthFmt (months : List String) (s : String) : Option (Nat × Nat × Nat) :=
  match matchMonthGo 0 months (pyLower s).data with
  | none => none
  | some (m, rest) =>
    match skipWs1 rest with
    | none => none
    | some rest2 => tryDayCandidates m (dayCandidates rest2)

def isLeapYear (y : Nat) : Bool := y % 4 = 0 && (y % 100 ≠ 0 || y % 400 = 0)

def daysInMonth (y m : Nat) : Nat :=
  if m = 2 then (if isLeapYear y then 29 else 28)
  else if m = 4 || m = 6 || m = 9 || m = 11 then 30
  else 31

/-- The `datetime` constructor's validation of the captured fields. -/
def datetimeValid (y m d : Nat) : Bool :=
  1 ≤ y && 1 ≤ d && d ≤ daysInMonth y m

def pad2 (n : Nat) : String := if n < 10 then "0" ++ toString n else toString n

def pad4 (n : Nat) : String :=
  if n < 10 then "000" ++ toString n
  else if n < 100 then "00" ++ toString n
  else if n < 1000 then "0" ++ toString n
  else toString n

/-- `date_obj.strftime('%Y-%m-%d')`. -/
def mkDateStr (y m d : Nat) : String := pad4 y ++ "-" ++ pad2 m ++ "-" ++ pad2 d

def strptimeDate (months : List String) (s : String) : Option String :=
  match strptimeMonthFmt months s with
  | none => none
  | some (y, m, d) => if datetimeValid y m d then some (mkDateStr y m d) else none

/-- The crawler's two-format date parse (lines 154-164 of the source):
try `'%b %d, %Y'`, then `'%B %d, %Y'`; `none` when both raise. -/
def pyParseDate (s : String) : Option String :=
  match strptimeDate monthAbbrs s with
  | some r => some r
  | none => strptimeDate monthNamesFull s

/-! ## The boxscore-URL token regex `(\d{8})([a-z]{2,3})\.htm`
(`re.search` semantics: leftmost start position wins, and the
`{2,3}` quantifier is greedy with backtracking). -/

def isLowerAZ (c : Char) : Bool := 'a' ≤ c && c ≤ 'z'

def litHtm : List Char := ['.', 'h', 't', 'm']

def dropDigits8 : List Char → Option (List Char)
  | d1 :: d2 :: d3 :: d4 :: d5 :: d6 :: d7 :: d8 :: rest =>
    if [d1, d2, d3, d4, d5, d6, d7, d8].all isAsciiDigit then some rest else none
  | _ => none

/-- Try the whole pattern anchored at the current position; returns the
second capture group (the team abbreviation). -/
def matchAbbrAt (s : List Char) : Option String :=
  match dropDigits8 s with
  | none => none
  | some rest =>
    match rest with
    | a :: b :: c :: rest2 =>
      if isLowerAZ a && isLowerAZ b then
        if isLowerAZ c && litHtm.isPrefixOf rest2 then some (String.mk [a, b, c])
        else if litHtm.isPrefixOf (c :: rest2) then some (String.mk [a, b])
        else none
      else none
    | _ => none

def regexSearchAbbrL : List Char → Option String
  | [] => none
  | c :: rest =>
    match matchAbbrAt (c :: rest) with
    | some r => some r
    | none => regexSearchAbbrL rest

def regexSearchAbbr (s : String) : Option String := regexSearchAbbrL s.data


/-! ## HTML node model with BeautifulSoup search semantics

`Node`/`NodeList` are a mutual inductive pair (rather than `Node` with
`List Node` children) so that the tree traversals below are structural
recursions that the kernel can evaluate. -/

mutual

inductive Node where
  | text (s : String)
  | elem (tag : String) (attrs : List (String × String)) (children : NodeList)

inductive NodeList where
  | nil
  | cons (head : Node) (tail : NodeList)

end

def nodesOf : List Node → NodeList
  | [] => NodeList.nil
  | n :: ns => NodeList.cons n (nodesOf ns)

/-- Element-construction helper for the concrete fixtures below. -/
def el (tag : String) (attrs : List (String × String)) (children : List Node) : Node :=
  Node.elem tag attrs (nodesOf children)

def tx (s : String) : Node := Node.text s

mutual

/-- `get_text()`: all strings of the subtree, concatenated in order. -/
def getTextN : Node → String
  | Node.text s => s
  | Node.elem _ _ cs => getTextL cs

def getTextL : NodeList → String
  | NodeList.nil => ""
  | NodeList.cons c cs => getTextN c ++ getTextL cs

end

mutual

/-- `find_all(pred)`: every descendant (the node itself excluded)
satisfying `pred`, in document (preorder) order. -/
def findAllNode (p : Node → Bool) : Node → List Node
  | Node.text _ => []
  | Node.elem _ _ cs => findAllList p cs

def findAllList (p : Node → Bool) : NodeList → List Node
  | NodeList.nil => []
  | NodeList.cons c cs => (if p c then [c] else []) ++ findAllNode p c ++ findAllList p cs

end

/-- `find(pred)`: first descendant match. -/
def findFirst (p : Node → Bool) (n : Node) : Option Node := (findAllNode p n).head?

def attrOf (n : Node) (k : String) : Option String :=
  match n with
  | Node.text _ => none
  | Node.elem _ attrs _ => attrs.lookup k

def isTag (n : Node) (t : String) : Bool :=
  match n with
  | Node.elem tg _ _ => tg == t
  | Node.text _ => false

def attrIs (n : Node) (k v : String) : Bool := attrOf n k == some v

/-- The multi-valued `class` attribute as BeautifulSoup sees it:
the raw attribute split on whitespace, `[]` when absent. -/
def classesOf (n : Node) : List String :=
  match attrOf n "class" with
  | none => []
  | some s => pySplitWs s

/-- A string `class_` filter: matches when the string equals one of the
classes, or — only when it contains a space — when it equals the
classes joined by single spaces. -/
def bs4ClassStr (filter : String) (n : Node) : Bool :=
  let cs := classesOf n
  cs.contains filter || (filter.data.contains ' ' && joinSpace cs == filter)

/-- A regex `class_` filter (the crawler only uses literal patterns, so
`re.search` is substring containment, applied per class value). -/
def bs4ClassRegex (pat : String) (n : Node) : Bool :=
  (classesOf n).any (fun c => containsSub pat c)

/-- An `href=re.compile(...)` filter: the attribute must be present and
match (again a literal pattern, hence substring containment). -/
def hrefContains (pat : String) (n : Node) : Bool :=
  match attrOf n "href" with
  | some h => containsSub pat h
  | none => false

/-! ## Crawler constants and the team-abbreviation registry -/

def pfrBaseUrl : String := "https://www.pro-football-reference.com"

def crawlDelay : Int := 2

def maxRetriesDefault : Nat := 3

/-- `team_abbr_map` (lines 206-219 of the source), in source order. -/
def teamAbbrMap : List (String × String) :=
  [("ari", "Arizona Cardinals"), ("atl", "Atlanta Falcons"), ("bal", "Baltimore Ravens"),
   ("buf", "Buffalo Bills"), ("car", "Carolina Panthers"), ("chi", "Chicago Bears"),
   ("cin", "Cincinnati Bengals"), ("cle", "Cleveland Browns"), ("dal", "Dallas Cowboys"),
   ("den", "Denver Broncos"), ("det", "Detroit Lions"), ("gb", "Green Bay Packers"),
   ("hou", "Houston Texans"), ("ind", "Indianapolis Colts"), ("jax", "Jacksonville Jaguars"),
   ("kan", "Kansas City Chiefs"), ("kc", "Kansas City Chiefs"), ("lv", "Las Vegas Raiders"),
   ("lac", "Los Angeles Chargers"), ("lar", "Los Angeles Rams"), ("mia", "Miami Dolphins"),
   ("min", "Minnesota Vikings"), ("ne", "New England Patriots"), ("no", "New Orleans Saints"),
   ("nyg", "New York Giants"), ("nyj", "New York Jets"), ("phi", "Philadelphia Eagles"),
   ("pit", "Pittsburgh Steelers"), ("sf", "San Francisco 49ers"), ("sea", "Seattle Seahawks"),
   ("tb", "Tampa Bay Buccaneers"), ("ten", "Tennessee Titans"), ("was", "Washington Football Team"),
   ("rav", "Baltimore Ravens"), ("jag", "Jacksonville Jaguars")]


/-! ## `fetch_with_retry` (lines 49-113)

The network is an oracle giving, for each attempt index, either an HTTP
response (status plus optional `Retry-After` header) or a
`requests.exceptions.RequestException` with its message.  The function
returns the final outcome together with the list of sleep durations, in
order. -/

inductive HttpEvent where
  | resp (status : Nat) (retryAfter : Option String)
  | exn (msg : String)

inductive FetchResult where
  | ok (status : Nat)
  | gaveUp
  | raised (msg : String)
deriving DecidableEq

/-- The wait computed inside the `status_code == 429` branch
(lines 77-87): `if retry_after:` is a truthiness test, so an absent or
empty header takes the exponential-backoff branch; a non-empty header
is fed to `int(...)`, falling back to `CRAWL_DELAY * (attempt + 1)` on
`ValueError`. -/
def waitFor429 (retryAfter : Option String) (attempt : Nat) : Int :=
  if pyFalsyOptStr retryAfter then crawlDelay * 2 ^ attempt
  else
    match pyParseInt (retryAfter.getD "") with
    | some w => w
    | none => crawlDelay * (Int.ofNat attempt + 1)

/-- The message of the `HTTPError` that `raise_for_status()` raises for
a 4xx/5xx status. -/
def statusMsg (status : Nat) : String := toString status ++ " Error for url"

/-- One pass of the `for attempt in range(max_retries + 1)` loop; the
fuel is the number of remaining iterations, and the `0` case is the
`return None` after the loop (line 113). -/
def fetchAux (env : Nat → HttpEvent) (maxRetries : Nat) : Nat → Nat → FetchResult × List Int
  | 0, _ => (FetchResult.gaveUp, [])
  | fuel + 1, attempt =>
    match env attempt with
    | HttpEvent.resp status retryAfter =>
      if status = 429 then
        let wait := waitFor429 retryAfter attempt
        if attempt < maxRetries then
          let r := fetchAux env maxRetries fuel (attempt + 1)
          (r.1, wait :: r.2)
        else (FetchResult.gaveUp, [])
      else if 400 ≤ status && status < 600 then
        -- raise_for_status() raises; the surrounding except block retries
        -- only when the message mentions 429 and retries remain
        if attempt < maxRetries && containsSub "429" (statusMsg status) then
          let r := fetchAux env maxRetries fuel (attempt + 1)
          (r.1, (crawlDelay * 2 ^ attempt) :: r.2)
        else (FetchResult.raised (statusMsg status), [])
      else (FetchResult.ok status, [])
    | HttpEvent.exn msg =>
      if attempt < maxRetries && containsSub "429" msg then
        let r := fetchAux env maxRetries fuel (attempt + 1)
        (r.1, (crawlDelay * 2 ^ attempt) :: r.2)
      else (FetchResult.raised msg, [])

def fetchWithRetry (env : Nat → HttpEvent) (maxRetries : Nat) : FetchResult × List Int :=
  fetchAux env maxRetries (maxRetries + 1) 0


/-! ## Effects and the crawl environment -/

inductive Effect where
  | robotsFetch
  | pageFetch (url : String)
  | sleep (seconds : Int)
deriving BEq, DecidableEq

/-- What `fetch_with_retry` produced for a page-level caller:
a parsed page, `None` (retries exhausted), or a raised transport
error. -/
inductive FetchSim where
  | page (soup : Node)
  | failed
  | transport (msg : String)

structure Env where
  robotsReadOk : Bool
  robotsAllowed : String → Bool
  fetch : String → FetchSim

/-- `check_robots_txt` (lines 29-47): builds a fresh `RobotFileParser`
and reads the robots resource on every single call (one fetch per
call); on a read failure it warns and fails open. -/
def robotsDecision (env : Env) (path : String) : Bool :=
  if env.robotsReadOk then env.robotsAllowed (pfrBaseUrl ++ path) else true

def checkRobotsTxt (env : Env) (path : String) : Bool × List Effect :=
  (robotsDecision env path, [Effect.robotsFetch])

def robotsCount (es : List Effect) : Nat := es.count Effect.robotsFetch

/-! ## `parse_game_summary` (lines 132-355) -/

/-- The locals of the required-fields extraction phase
(lines 144-191), available only when none of the early `return None`
paths fired. -/
structure Basics where
  dateStr : Option String
  winnerTeam : String
  winnerScore : Int
  loserTeam : String
  loserScore : Int
  teamsTable : Node
  winnerRow : Node

def findTeamsTable (block : Node) : Option Node :=
  findFirst (fun n => isTag n "table" && bs4ClassStr "teams" n) block

def findDateRow (tt : Node) : Option Node :=
  findFirst (fun n => isTag n "tr" && bs4ClassStr "date" n) tt

def findWinnerRow (tt : Node) : Option Node :=
  findFirst (fun n => isTag n "tr" && bs4ClassStr "winner" n) tt

def findLoserRow (tt : Node) : Option Node :=
  findFirst (fun n => isTag n "tr" && bs4ClassStr "loser" n) tt

def teamLinkOf (row : Node) : Option Node :=
  findFirst (fun n => isTag n "a" && hrefContains "/teams/" n) row

def scoreCellOf (row : Node) : Option Node :=
  findFirst (fun n => isTag n "td" && bs4ClassStr "right" n) row

/-- Lines 144-191: teams table, date row, winner/loser rows, team links
and score cells.  A failing `int(...)` on a score cell raises
`ValueError`, which the enclosing `except` turns into `None`. -/
def extractBasics (block : Node) : Option Basics :=
  match findTeamsTable block with
  | none => none
  | some tt =>
    let dateStr :=
      match findDateRow tt with
      | none => none
      | some dr => pyParseDate (pyStrip (getTextN dr))
    match findWinnerRow tt, findLoserRow tt with
    | some wr, some lr =>
      match teamLinkOf wr, scoreCellOf wr with
      | some wl, some wc =>
        match pyParseInt (pyStrip (getTextN wc)) with
        | none => none
        | some ws =>
          match teamLinkOf lr, scoreCellOf lr with
          | some ll, some lc =>
            match pyParseInt (pyStrip (getTextN lc)) with
            | none => none
            | some ls =>
              some (Basics.mk dateStr (pyStrip (getTextN wl)) ws (pyStrip (getTextN ll)) ls tt wr)
          | _, _ => none
      | _, _ => none
    | _, _ => none

/-- Lines 193-197: the gamelink cell, preferring `td class="right
gamelink"` inside the winner row, falling back to any td of the teams
table whose class matches `gamelink`. -/
def gamelinkTdOf (tt wr : Node) : Option Node :=
  match findFirst (fun n => isTag n "td" && bs4ClassStr "right gamelink" n) wr with
  | some td => some td
  | none => findFirst (fun n => isTag n "td" && bs4ClassRegex "gamelink" n) tt

/-- Lines 222-224: the boxscore link's `href`, when present and truthy. -/
def gamelinkHref (tt wr : Node) : Option String :=
  match gamelinkTdOf tt wr with
  | none => none
  | some td =>
    match findFirst (fun n => isTag n "a" && hrefContains "/boxscores/" n) td with
    | none => none
    | some a =>
      match attrOf a "href" with
      | none => none
      | some h => if h == "" then none else some h

/-- Lines 227-230. -/
def mkGameUrl (h : String) : String :=
  if strStartsWith "/" h then "https://www.pro-football-reference.com" ++ h
  else "https://www.pro-football-reference.com/" ++ h

/-- Line 251's fuzzy match: some word of the registry name longer than
three characters occurs, case-insensitively, inside the winner's name. -/
def fuzzyNameMatch (registryName winner : String) : Bool :=
  (pySplitWs registryName).any
    (fun w => decide (3 < w.length) && containsSub (pyLower w) (pyLower winner))

/-- Lines 232-260: extract the date+abbreviation token from the href,
look the abbreviation up, and pick home/away by exact match, fuzzy
match, or loser-is-home default; `none` when the regex finds no token
(the four locals stay `None`). -/
def resolveFromHref (winner loser : String) (wScore lScore : Int) (href : String) :
    Option (String × String × Int × Int) :=
  match regexSearchAbbr href with
  | none => none
  | some abbr =>
    let registryName := teamAbbrMap.lookup abbr
    if registryName == some winner then some (winner, loser, wScore, lScore)
    else if registryName == some loser then some (loser, winner, lScore, wScore)
    else
      if !pyFalsyOptStr registryName && fuzzyNameMatch (registryName.getD "") winner then
        some (winner, loser, wScore, lScore)
      else some (loser, winner, lScore, wScore)

/-- Lines 199-260 as a whole: home/away/score locals plus `game_url`. -/
def homeAwaySection (b : Basics) :
    Option String × Option String × Option Int × Option Int × Option String :=
  match gamelinkHref b.teamsTable b.winnerRow with
  | none => (none, none, none, none, none)
  | some h =>
    match resolveFromHref b.winnerTeam b.loserTeam b.winnerScore b.loserScore h with
    | none => (none, none, none, none, some (mkGameUrl h))
    | some (ht, aw, hs, asc) => (some ht, some aw, some hs, some asc, some (mkGameUrl h))

/-- Lines 262-268: `if not home_team or not away_team`, default to
winner-is-home. -/
def applyFallback (b : Basics) (ht aw : Option String) (hs asc : Option Int) :
    Option String × Option String × Option Int × Option Int :=
  if pyFalsyOptStr ht || pyFalsyOptStr aw then
    (some b.winnerTeam, some b.loserTeam, some b.winnerScore, some b.loserScore)
  else (ht, aw, hs, asc)

/-- The four stats locals (lines 272-275), in declaration order. -/
structure Stats where
  homeRushing : Option Int
  awayRushing : Option Int
  homePassing : Option Int
  awayPassing : Option Int
deriving DecidableEq

def emptyStats : Stats := Stats.mk none none none none

/-- Lines 300-332: one row of the team-statistics table.  Inside the
per-row `try`, the away value of a pair is assigned before the home
value, so a `ValueError` on the home cell keeps the away assignment. -/
def rowStep (st : Stats) (row : Node) : Stats :=
  match findFirst (fun n => isTag n "th") row with
  | none => st
  | some th =>
    let statName := pyLower (pyStrip (getTextN th))
    match findAllNode (fun n => isTag n "td") row with
    | c0 :: c1 :: _ =>
      if containsSub "rush" statName && (containsSub "yds" statName || containsSub "tds" statName) then
        let aParts := pySplitOn '-' (pyStrip (getTextN c0))
        let hParts := pySplitOn '-' (pyStrip (getTextN c1))
        match aParts, hParts with
        | _ :: a1 :: _, _ :: h1 :: _ =>
          match pyParseInt (removeCommas a1) with
          | none => st
          | some a =>
            match pyParseInt (removeCommas h1) with
            | none => Stats.mk st.homeRushing (some a) st.homePassing st.awayPassing
            | some h => Stats.mk (some h) (some a) st.homePassing st.awayPassing
        | _, _ => st
      else if containsSub "net" statName && containsSub "pass" statName && containsSub "yds" statName then
        match pyParseInt (removeCommas (pyStrip (getTextN c0))) with
        | none => st
        | some a =>
          match pyParseInt (removeCommas (pyStrip (getTextN c1))) with
          | none => Stats.mk st.homeRushing st.awayRushing st.homePassing (some a)
          | some h => Stats.mk st.homeRushing st.awayRushing (some h) (some a)
      else if containsSub "pass" statName && containsSub "yds" statName && !containsSub "net" statName then
        match pyParseInt (removeCommas (pyStrip (getTextN c0))) with
        | none => st
        | some a =>
          match pyParseInt (removeCommas (pyStrip (getTextN c1))) with
          | none => Stats.mk st.homeRushing st.awayRushing st.homePassing (some a)
          | some h => Stats.mk st.homeRushing st.awayRushing (some h) (some a)
      else st
    | _ => st

/-- The `for row in rows` loop (line 300). -/
def scanStatsRows (rows : List Node) : Stats := rows.foldl rowStep emptyStats

/-- Lines 292-332: locate `div_team_stats`, its table, and scan the
rows. -/
def statsFromSoup (soup : Node) : Stats :=
  match findFirst (fun n => isTag n "div" && attrIs n "id" "div_team_stats") soup with
  | none => emptyStats
  | some d =>
    match findFirst (fun n => isTag n "table") d with
    | none => emptyStats
    | some t => scanStatsRows (findAllNode (fun n => isTag n "tr") t)

/-- Lines 277-335: the boxscore fetch, guarded by its own robots check
and crawl delay; a `None` result or any raised exception is swallowed,
leaving all four stats `None`. -/
def statsStage (env : Env) (gameUrl : Option String) : Stats × List Effect :=
  match gameUrl with
  | none => (emptyStats, [])
  | some u =>
    let cr := checkRobotsTxt env (pyReplaceEmpty pfrBaseUrl u)
    if !cr.1 then (emptyStats, cr.2)
    else
      let e2 := cr.2 ++ [Effect.sleep crawlDelay, Effect.pageFetch u]
      match env.fetch u with
      | FetchSim.failed => (emptyStats, e2)
      | FetchSim.transport _ => (emptyStats, e2)
      | FetchSim.page soup => (statsFromSoup soup, e2)

/-- The emitted record (the dict of lines 341-351); every field mirrors
the corresponding local, which is why the non-stats fields are still
`Option`s here — the final guard is what rules the `None`s out. -/
structure Game where
  date : Option String
  homeTeam : Option String
  awayTeam : Option String
  homeScore : Option Int
  awayScore : Option Int
  homeRushing : Option Int
  awayRushing : Option Int
  homePassing : Option Int
  awayPassing : Option Int
deriving DecidableEq

def parseGameSummary (env : Env) (block : Node) (year : Int) : Option Game × List Effect :=
  match extractBasics block with
  | none => (none, [])
  | some b =>
    let ha := homeAwaySection b
    let fb := applyFallback b ha.1 ha.2.1 ha.2.2.1 ha.2.2.2.1
    let stEffs := statsStage env ha.2.2.2.2
    if pyFalsyOptStr b.dateStr || pyFalsyOptStr fb.1 || pyFalsyOptStr fb.2.1
        || fb.2.2.1.isNone || fb.2.2.2.isNone then
      (none, stEffs.2)
    else
      (some (Game.mk b.dateStr fb.1 fb.2.1 fb.2.2.1 fb.2.2.2
              stEffs.1.homeRushing stEffs.1.awayRushing stEffs.1.homePassing stEffs.1.awayPassing),
        stEffs.2)

/-! ## `fetch_week_games` (lines 357-425) -/

/-- `has_game_summary_class` (lines 387-393): a div whose class list
contains all three of `game_summary`, `expanded`, `nohover`. -/
def gsPred1 (n : Node) : Bool :=
  isTag n "div" && (classesOf n).contains "game_summary"
    && (classesOf n).contains "expanded" && (classesOf n).contains "nohover"

/-- Line 399's fallback: `class_='game_summary expanded nohover'`. -/
def gsPred2 (n : Node) : Bool :=
  isTag n "div" && bs4ClassStr "game_summary expanded nohover" n

/-- Line 403's fallback: `class_=re.compile(r'game_summary')`. -/
def gsPred3 (n : Node) : Bool :=
  isTag n "div" && bs4ClassRegex "game_summary" n

def gsStage1 (soup : Node) : List Node := findAllNode gsPred1 soup

def gsStage2 (soup : Node) : List Node := findAllNode gsPred2 soup

def gsStage3 (soup : Node) : List Node := findAllNode gsPred3 soup

/-- Lines 395-407: the three-stage fallback chain; each later stage
runs only when the previous ones found nothing (`if not
game_summaries`). -/
def extractGameBlocks (soup : Node) : List Node :=
  let g1 := gsStage1 soup
  let g2 := if g1.isEmpty then gsStage2 soup else g1
  if g2.isEmpty then gsStage3 soup else g2

/-- The fallback chain exactly as the specification words it, for
comparison: its first stage takes nodes whose class SET equals
`{game_summary, expanded, nohover}`. -/
def specPred1 (n : Node) : Bool :=
  isTag n "div" &&
    (classesOf n).all (fun c => ["game_summary", "expanded", "nohover"].contains c) &&
    ["game_summary", "expanded", "nohover"].all (fun c => (classesOf n).contains c)

def specExtractGameBlocks (soup : Node) : List Node :=
  let g1 := findAllNode specPred1 soup
  let g2 := if g1.isEmpty then gsStage2 soup else g1
  if g2.isEmpty then gsStage3 soup else g2

/-- The per-block loop of lines 411-414. -/
def parseBlocksLoop (env : Env) (year : Int) : List Node → List Game × List Effect
  | [] => ([], [])
  | blk :: rest =>
    let pg := parseGameSummary env blk year
    let pr := parseBlocksLoop env year rest
    match pg.1 with
    | some g => (g :: pr.1, pg.2 ++ pr.2)
    | none => (pr.1, pg.2 ++ pr.2)

/-- Lines 357-425: robots gate, week-page fetch (raised transport
errors are caught at line 418 and yield the empty list), block
extraction, per-block parsing. -/
def fetchWeekGames (env : Env) (weekUrl : String) (year : Int) : List Game × List Effect :=
  let cr := checkRobotsTxt env (pyReplaceEmpty pfrBaseUrl weekUrl)
  if !cr.1 then ([], cr.2)
  else
    let e2 := cr.2 ++ [Effect.pageFetch weekUrl]
    match env.fetch weekUrl with
    | FetchSim.failed => ([], e2)
    | FetchSim.transport _ => ([], e2)
    | FetchSim.page soup =>
      let pr := parseBlocksLoop env year (extractGameBlocks soup)
      (pr.1, e2 ++ pr.2)

/-! ## `get_week_url` and `main` (lines 115-130, 427-527) -/

/-- Lines 126-130: the branch on `isinstance(week, int)`; the left
summand is the integer branch, the right one the string branch. -/
def getWeekUrl (year : Int) (week : Sum Int String) : String :=
  match week with
  | Sum.inl w => pfrBaseUrl ++ "/years/" ++ toString year ++ "/week_" ++ toString w ++ ".htm"
  | Sum.inr w => pfrBaseUrl ++ "/years/" ++ toString year ++ "/" ++ w ++ ".htm"

/-- `int(week)` after `week.isdigit()` succeeded. -/
def natOfDigitStr (s : String) : Nat :=
  s.data.foldl (fun acc c => acc * 10 + digitVal c) 0

/-- Lines 461-468: the week argument (always a string, since argparse
declares `type=str`) is valid when it is all digits with value 1-18,
or one of the playoff round names. -/
def validWeek (week : String) : Bool :=
  if pyIsDigitStr week then
    let n := natOfDigitStr week
    !(n < 1 || 18 < n)
  else ["wild-card", "divisional", "conference", "super-bowl"].contains week

/-- The URL `main` hands to `fetch_week_games` (line 485): `week` is
passed as the string it came in as. -/
def mainWeekUrl (year : Int) (week : String) : String :=
  getWeekUrl year (Sum.inr week)

def dateKey (g : Game) : String := g.date.getD ""

/-- Lexicographic (code-point) order on strings, the order pandas sorts
ISO date strings by. -/
def charListLt : List Char → List Char → Bool
  | [], [] => false
  | [], _ :: _ => true
  | _ :: _, [] => false
  | a :: as2, b :: bs =>
    if a.toNat < b.toNat then true
    else if b.toNat < a.toNat then false
    else charListLt as2 bs

def strLtB (a b : String) : Bool := charListLt a.data b.data

def insertByDate (g : Game) : List Game → List Game
  | [] => [g]
  | h :: t => if strLtB (dateKey g) (dateKey h) then g :: h :: t else h :: insertByDate g t

/-- `df.sort_values('Date')` on ISO-formatted date strings. -/
def sortByDate : List Game → List Game
  | [] => []
  | g :: t => insertByDate g (sortByDate t)

/-- Lines 427-527 reduced to their observable output: `none` when the
week argument is invalid or no game data was retrieved (no CSV is
written), otherwise the date-sorted record list that is written out. -/
def mainRun (env : Env) (year : Int) (week : String) : Option (List Game) :=
  if validWeek week then
    let r := fetchWeekGames env (mainWeekUrl year week) year
    if r.1.isEmpty then none else some (sortByDate r.1)
  else none

/-! ## Concrete fixtures -/

/-- A game summary block with no gamelink cell: the resolver falls back
to winner-is-home and no boxscore fetch happens. -/
def blockPlain : Node :=
  el "div" [("class", "game_summary expanded nohover")] [
    el "table" [("class", "teams")] [
      el "tr" [("class", "date")] [tx "Sep 28, 2020"],
      el "tr" [("class", "winner")] [
        el "td" [] [el "a" [("href", "/teams/kan/2020.htm")] [tx "Kansas City Chiefs"]],
        el "td" [("class", "right")] [tx "24"]],
      el "tr" [("class", "loser")] [
        el "td" [] [el "a" [("href", "/teams/rav/2020.htm")] [tx "Baltimore Ravens"]],
        el "td" [("class", "right")] [tx "20"]]]]

/-- A game summary block carrying a boxscore gamelink whose URL token
`202309070kan` names the home team. -/
def blockKC : Node :=
  el "div" [("class", "game_summary expanded nohover")] [
    el "table" [("class", "teams")] [
      el "tr" [("class", "date")] [tx "Sep 7, 2023"],
      el "tr" [("class", "winner")] [
        el "td" [] [el "a" [("href", "/teams/kan/2023.htm")] [tx "Kansas City Chiefs"]],
        el "td" [("class", "right")] [tx "24"],
        el "td" [("class", "right gamelink")] [
          el "a" [("href", "/boxscores/202309070kan.htm")] [tx "Final"]]],
      el "tr" [("class", "loser")] [
        el "td" [] [el "a" [("href", "/teams/rav/2023.htm")] [tx "Baltimore Ravens"]],
        el "td" [("class", "right")] [tx "20"]]]]

/-- A block with no winner row at all. -/
def blockNoWinner : Node :=
  el "div" [("class", "game_summary expanded nohover")] [
    el "table" [("class", "teams")] [
      el "tr" [("class", "date")] [tx "Sep 28, 2020"],
      el "tr" [("class", "loser")] [
        el "td" [] [el "a" [("href", "/teams/rav/2020.htm")] [tx "Baltimore Ravens"]],
        el "td" [("class", "right")] [tx "20"]]]]

def boxUrlKC : String := "https://www.pro-football-reference.com/boxscores/202309070kan.htm"

/-- An environment in which every boxscore fetch fails after retries. -/
def envIdle : Env := Env.mk true (fun _ => true) (fun _ => FetchSim.failed)

def gamePlain : Game :=
  Game.mk (some "2020-09-28") (some "Kansas City Chiefs") (some "Baltimore Ravens")
    (some 24) (some 20) none none none none


/-- A boxscore page whose team-statistics table has a rushing row and a
net-passing row. -/
def soupStats : Node :=
  el "html" [] [
    el "div" [("id", "div_team_stats")] [
      el "table" [] [
        el "tr" [] [el "th" [] [tx "Rush-Yds-TDs"],
          el "td" [] [tx "28-140-1"], el "td" [] [tx "22-85-0"]],
        el "tr" [] [el "th" [] [tx "Net Pass Yds"],
          el "td" [] [tx "210"], el "td" [] [tx "180"]]]]]

/-- A week page whose only block is `blockKC`, served by an environment
that answers the boxscore fetch with `soupStats`. -/
def weekUrl2023w1 : String := "https://www.pro-football-reference.com/years/2023/1.htm"

def pageOneGame : Node := el "html" [] [el "body" [] [blockKC]]

def envFull : Env :=
  Env.mk true (fun _ => true)
    (fun u => if u == weekUrl2023w1 then FetchSim.page pageOneGame
              else if u == boxUrlKC then FetchSim.page soupStats
              else FetchSim.failed)




/-- A week page with two game blocks. -/
def pageTwoGames : Node := el "html" [] [el "body" [] [blockKC, blockPlain]]

/-- Environment for the transport-error scenarios: the week page loads,
but the boxscore fetch for `blockKC` raises a transport error. -/
def envBoxTransport : Env :=
  Env.mk true (fun _ => true)
    (fun u => if u == weekUrl2023w1 then FetchSim.page pageTwoGames
              else if u == boxUrlKC then FetchSim.transport "timeout" else FetchSim.failed)

/-- Environment in which the week-page fetch itself raises. -/
def envWeekTransport : Env :=
  Env.mk true (fun _ => true)
    (fun u => if u == weekUrl2023w1 then FetchSim.transport "connection reset"
              else FetchSim.failed)

def gameKCnull : Game :=
  Game.mk (some "2023-09-07") (some "Kansas City Chiefs") (some "Baltimore Ravens")
    (some 24) (some 20) none none none none


/-- Concrete stats rows for the team-statistics scan. -/
def rowRush (av hv : String) : Node :=
  el "tr" [] [el "th" [] [tx "Rush-Yds-TDs"], el "td" [] [tx av], el "td" [] [tx hv]]

def rowPassNet (av hv : String) : Node :=
  el "tr" [] [el "th" [] [tx "Net Pass Yds"], el "td" [] [tx av], el "td" [] [tx hv]]

/-- Divs for the fallback-chain comparison: one whose class set is
exactly the triplet, one with an extra class. -/
def divTriplet : Node := el "div" [("class", "game_summary expanded nohover")] []

def divTripletExtra : Node := el "div" [("class", "game_summary expanded nohover extra")] []

def pageMixed : Node := el "html" [] [divTripletExtra, divTriplet]

/-- The teams table of `blockNoWinner`, named so the C9 witness can
hand it to the theorem. -/
def ttNoWinner : Node :=
  el "table" [("class", "teams")] [
    el "tr" [("class", "date")] [tx "Sep 28, 2020"],
    el "tr" [("class", "loser")] [
      el "td" [] [el "a" [("href", "/teams/rav/2020.htm")] [tx "Baltimore Ravens"]],
      el "td" [("class", "right")] [tx "20"]]]


/-- Whether a parsed block ends up with a boxscore `game_url` (drives
one robots fetch in the stats stage). -/
def blockHasBoxUrl (blk : Node) : Bool :=
  match extractBasics blk with
  | none => false
  | some b => ((homeAwaySection b).2.2.2.2).isSome

/-- Whether a score cell required by the extractor is missing or fails
integer parsing. -/
def scoreBad (row : Node) : Prop :=
  match scoreCellOf row with
  | none => True
  | some c => pyParseInt (pyStrip (getTextN c)) = none

/-! ## Claim theorems -/

/-- C10: every run started through the CLI passes the week argument to
the URL builder as a string, so the week URL is always
`/years/{year}/{week}.htm` (for example, `--week 1` gives
`/years/2020/1.htm`), and the integer branch that would produce
`/years/{year}/week_{n}.htm` yields a different URL that the CLI path
never builds. -/
theorem c10_week_url_string_branch :
    (∀ (y : Int) (w : String),
        mainWeekUrl y w = pfrBaseUrl ++ "/years/" ++ toString y ++ "/" ++ w ++ ".htm") ∧
    mainWeekUrl 2020 "1" = "https://www.pro-football-reference.com/years/2020/1.htm" ∧
    (∀ (y w : Int),
        getWeekUrl y (Sum.inl w) =
          pfrBaseUrl ++ "/years/" ++ toString y ++ "/week_" ++ toString w ++ ".htm") ∧
    mainWeekUrl 2020 "1" ≠ getWeekUrl 2020 (Sum.inl 1) :=
  ⟨fun _ _ => rfl, by decide, fun _ _ => rfl, by decide⟩

/-- C2 counterexample: a present-but-empty `Retry-After` header is
"present but unparseable" in the claim's terms (`int('')` raises), yet
the code's `if retry_after:` truthiness test sends it down the
exponential-backoff branch: on attempt 2 the wait is
`baseDelay * 2^2 = 8`, not the claimed `baseDelay * (2+1) = 6`. -/
theorem c2_counterexample :
    pyParseInt "" = none ∧
    waitFor429 (some "") 2 = 8 ∧
    crawlDelay * (Int.ofNat 2 + 1) = 6 ∧
    (8 : Int) ≠ 6 := by decide

/-- C2 (amended): on HTTP 429, a non-empty `Retry-After` header that
parses as an integer gives exactly that wait; a non-empty but
unparseable one gives `baseDelay * (attempt+1)`; an absent — or empty —
header gives `baseDelay * 2^attempt`; and the first sleep of the retry
loop is exactly this computed wait. -/
theorem c2_retry_wait_times :
    (∀ (s : String) (n : Int) (attempt : Nat),
        s ≠ "" → pyParseInt s = some n → waitFor429 (some s) attempt = n) ∧
    (∀ (s : String) (attempt : Nat),
        s ≠ "" → pyParseInt s = none →
        waitFor429 (some s) attempt = crawlDelay * (Int.ofNat attempt + 1)) ∧
    (∀ attempt : Nat, waitFor429 none attempt = crawlDelay * 2 ^ attempt) ∧
    (∀ attempt : Nat, waitFor429 (some "") attempt = crawlDelay * 2 ^ attempt) ∧
    (∀ (env : Nat → HttpEvent) (maxRetries : Nat) (ra : Option String),
        env 0 = HttpEvent.resp 429 ra → 0 < maxRetries →
        (fetchWithRetry env maxRetries).2.head? = some (waitFor429 ra 0)) := by
  refine ⟨?_, ?_, ?_, ?_, ?_⟩
  · intro s n attempt hne hp
    have h1 : (s == "") = false := beq_eq_false_iff_ne.mpr hne
    simp [waitFor429, pyFalsyOptStr, h1, hp]
  · intro s attempt hne hp
    have h1 : (s == "") = false := beq_eq_false_iff_ne.mpr hne
    simp [waitFor429, pyFalsyOptStr, h1, hp]
  · intro attempt; rfl
  · intro attempt; rfl
  · intro env maxRetries ra h0 hpos
    cases maxRetries with
    | zero => exact absurd hpos (by decide)
    | succ k =>
      show (fetchAux env (k + 1) (k + 2) 0).2.head? = some (waitFor429 ra 0)
      simp [fetchAux, h0, Nat.succ_pos]

/-- C2 witness. -/
theorem c2_retry_wait_times_witness :
    waitFor429 (some "5") 0 = 5 ∧
    waitFor429 (some "x") 1 = 4 ∧
    (fetchWithRetry (fun _ => HttpEvent.resp 429 (some "7")) 3).2.head? =
      some (waitFor429 (some "7") 0) :=
  ⟨c2_retry_wait_times.1 "5" 5 0 (by decide) (by decide),
   c2_retry_wait_times.2.1 "x" 1 (by decide) (by decide),
   c2_retry_wait_times.2.2.2.2 (fun _ => HttpEvent.resp 429 (some "7")) 3 (some "7") rfl
     (by decide)⟩

/-- Helper for C6: under an all-429-response network the retry loop
never raises and ends in the give-up outcome, whatever the fuel and
starting attempt. -/
theorem fetchAux_all429_gaveUp (env : Nat → HttpEvent) (maxRetries : Nat)
    (h : ∀ i, ∃ ra, env i = HttpEvent.resp 429 ra) :
    ∀ fuel attempt, (fetchAux env maxRetries fuel attempt).1 = FetchResult.gaveUp := by
  intro fuel
  induction fuel with
  | zero => intro _; rfl
  | succ n ih =>
    intro attempt
    obtain ⟨ra, hra⟩ := h attempt
    by_cases hlt : attempt < maxRetries
    · simp [fetchAux, hra, hlt, ih]
    · simp [fetchAux, hra, hlt]

/-- C6: when every attempt is answered with an HTTP 429 response, the
fetcher exhausts `maxRetries` and returns the give-up outcome (`None`)
— it neither returns a response nor raises, so rate limiting is never
surfaced as a fatal error to a caller. -/
theorem c6_rate_limit_never_fatal (env : Nat → HttpEvent) (maxRetries : Nat)
    (h : ∀ i, ∃ ra, env i = HttpEvent.resp 429 ra) :
    (fetchWithRetry env maxRetries).1 = FetchResult.gaveUp :=
  fetchAux_all429_gaveUp env maxRetries h (maxRetries + 1) 0

/-- C6 witness. -/
theorem c6_rate_limit_never_fatal_witness :
    (fetchWithRetry (fun _ => HttpEvent.resp 429 none) 3).1 = FetchResult.gaveUp :=
  c6_rate_limit_never_fatal (fun _ => HttpEvent.resp 429 none) 3 (fun _ => ⟨none, rfl⟩)

/-- C1 counterexample: the boxscore URL token `202309070kan` resolves
through the registry to "Kansas City Chiefs", but with winner "Foo" and
loser "Bar" neither the exact nor the fuzzy match fires, so the
resolver marks the LOSER'S name "Bar" as home — not the registry's full
name, contradicting the claim's universal statement. -/
theorem c1_counterexample :
    regexSearchAbbr "/boxscores/202309070kan.htm" = some "kan" ∧
    teamAbbrMap.lookup "kan" = some "Kansas City Chiefs" ∧
    resolveFromHref "Foo" "Bar" 24 20 "/boxscores/202309070kan.htm" =
      some ("Bar", "Foo", 20, 24) ∧
    ("Bar" : String) ≠ "Kansas City Chiefs" := by decide

/-- C1 (amended): when the boxscore link path yields a registered
abbreviation AND the registry's full name exactly equals the winner's
or the loser's name, the resolver returns that registry name as the
home team.  (When neither name matches exactly, the fuzzy/default
stages pick the winner's or loser's own name instead.) -/
theorem c1_home_is_registry_name_on_exact_match
    (winner loser : String) (wScore lScore : Int) (href abbr nm : String)
    (h1 : regexSearchAbbr href = some abbr)
    (h2 : teamAbbrMap.lookup abbr = some nm)
    (h3 : nm = winner ∨ nm = loser) :
    ∃ away hs asc,
      resolveFromHref winner loser wScore lScore href = some (nm, away, hs, asc) := by
  simp only [resolveFromHref, h1, h2]
  by_cases hw : nm = winner
  · subst hw
    exact ⟨loser, wScore, lScore, by simp⟩
  · have hl : nm = loser := h3.resolve_left hw
    subst hl
    have h4 : ((some nm : Option String) == some winner) = false := by
      simp [hw]
    exact ⟨winner, lScore, wScore, by simp [h4]⟩

/-- C1 witness. -/
theorem c1_home_is_registry_name_witness :
    ∃ away hs asc,
      resolveFromHref "Kansas City Chiefs" "Baltimore Ravens" 24 20
        "/boxscores/202309070kan.htm" = some ("Kansas City Chiefs", away, hs, asc) :=
  c1_home_is_registry_name_on_exact_match "Kansas City Chiefs" "Baltimore Ravens" 24 20
    "/boxscores/202309070kan.htm" "kan" "Kansas City Chiefs" (by decide) (by decide)
    (Or.inl rfl)

/-- C8 counterexample: in the rushing branch the away value is assigned
before the home value, so for the row `"25-120-1"` / `"30-zz-0"` the
home cell's failing parse leaves away rushing at 120 — the claim's
"null for both sides" is violated for this unparseable-cell row. -/
theorem c8_counterexample :
    pyParseInt (removeCommas "zz") = none ∧
    scanStatsRows [rowRush "25-120-1" "30-zz-0"] = Stats.mk none (some 120) none none ∧
    Stats.mk none (some 120) none none ≠ emptyStats := by decide

/-- C8 (amended): the rushing row `"25-120-1"`/`"30-95-0"` yields away
120 and home 95; a row whose away cell fails the hyphen-format guard
(such as `"abc"`) yields null on both sides; when the away cell parses
but the home cell does not, the away value is kept and only the home
side stays null; in every case the scan continues with the remaining
rows (the later passing row is still parsed). -/
theorem c8_stats_row_parsing :
    scanStatsRows [rowRush "25-120-1" "30-95-0"] = Stats.mk (some 95) (some 120) none none ∧
    scanStatsRows [rowRush "abc" "30-95-0", rowPassNet "210" "180"] =
      Stats.mk none none (some 180) (some 210) ∧
    scanStatsRows [rowRush "25-120-1" "30-zz-0", rowPassNet "210" "180"] =
      Stats.mk none (some 120) (some 180) (some 210) := by decide

/-- C3 counterexample: on a page holding a div with classes
`game_summary expanded nohover extra` followed by one with exactly the
triplet, the code's first stage (a containment test) collects both
divs, while the claimed first stage (exact class-set equality) would
collect only the second — the two chains disagree. -/
theorem c3_counterexample :
    (specExtractGameBlocks pageMixed).length = 1 ∧
    (extractGameBlocks pageMixed).length = 2 ∧
    (specExtractGameBlocks pageMixed).length ≠ (extractGameBlocks pageMixed).length := by
  decide

/-- C3 (amended): the week-page parser applies the three-stage fallback
chain in order — first divs whose class list CONTAINS all of
game_summary, expanded, nohover; then divs whose class attribute
textually equals that triplet; then any div whose class attribute
matches "game_summary" — where a later stage runs only if every earlier
stage was empty, and an all-empty chain gives the empty sequence rather
than an error. -/
theorem c3_fallback_chain (soup : Node) :
    (gsStage1 soup ≠ [] → extractGameBlocks soup = gsStage1 soup) ∧
    (gsStage1 soup = [] → gsStage2 soup ≠ [] → extractGameBlocks soup = gsStage2 soup) ∧
    (gsStage1 soup = [] → gsStage2 soup = [] → extractGameBlocks soup = gsStage3 soup) ∧
    (gsStage1 soup = [] → gsStage2 soup = [] → gsStage3 soup = [] →
      extractGameBlocks soup = []) := by
  refine ⟨?_, ?_, ?_, ?_⟩
  · intro h1
    have e1 : (gsStage1 soup).isEmpty = false := by
      cases hc : gsStage1 soup with
      | nil => exact absurd hc h1
      | cons a t => rfl
    simp [extractGameBlocks, e1]
  · intro h1 h2
    have e2 : (gsStage2 soup).isEmpty = false := by
      cases hc : gsStage2 soup with
      | nil => exact absurd hc h2
      | cons a t => rfl
    simp [extractGameBlocks, h1, e2]
  · intro h1 h2
    simp [extractGameBlocks, h1, h2]
  · intro h1 h2 h3
    simp [extractGameBlocks, h1, h2, h3]

/-- C3 witness. -/
theorem c3_fallback_chain_witness : extractGameBlocks pageMixed = gsStage1 pageMixed :=
  (c3_fallback_chain pageMixed).1
    (fun h => absurd (congrArg List.length h) (by decide))

/-- C5: every emitted record passes the final guard, so its date and
both team names are non-empty and both scores are present; records
failing the guard are dropped (`none`), never emitted with nulls in
those fields.  The second half exhibits an emitted record whose four
yardage fields are all null, which the guard permits. -/
theorem c5_required_fields_always_present :
    (∀ (env : Env) (block : Node) (year : Int) (g : Game),
        (parseGameSummary env block year).1 = some g →
        pyFalsyOptStr g.date = false ∧ pyFalsyOptStr g.homeTeam = false ∧
        pyFalsyOptStr g.awayTeam = false ∧ g.homeScore.isSome ∧ g.awayScore.isSome) ∧
    ((parseGameSummary envIdle blockPlain 2020).1 = some gamePlain ∧
      gamePlain.homeRushing = none ∧ gamePlain.awayRushing = none ∧
      gamePlain.homePassing = none ∧ gamePlain.awayPassing = none) := by
  constructor
  · intro env block year g h
    unfold parseGameSummary at h
    cases hb : extractBasics block with
    | none => rw [hb] at h; exact absurd h (by simp)
    | some b =>
      rw [hb] at h
      dsimp only at h
      split at h
      · exact absurd h (by simp)
      · next hcond =>
        simp only [Bool.or_eq_true, not_or] at hcond
        obtain ⟨⟨⟨⟨h1, h2⟩, h3⟩, h4⟩, h5⟩ := hcond
        simp only [Option.some.injEq] at h
        subst h
        refine ⟨by simpa using h1, by simpa using h2, by simpa using h3, ?_, ?_⟩
        · cases hv : (applyFallback b (homeAwaySection b).1 (homeAwaySection b).2.1
              (homeAwaySection b).2.2.1 (homeAwaySection b).2.2.2.1).2.2.1 with
          | none => rw [hv] at h4; simp at h4
          | some v => simp [hv]
        · cases hv : (applyFallback b (homeAwaySection b).1 (homeAwaySection b).2.1
              (homeAwaySection b).2.2.1 (homeAwaySection b).2.2.2.1).2.2.2 with
          | none => rw [hv] at h5; simp at h5
          | some v => simp [hv]
  · exact ⟨by decide, rfl, rfl, rfl, rfl⟩

/-- C5 witness. -/
theorem c5_required_fields_witness :
    pyFalsyOptStr gamePlain.date = false ∧ pyFalsyOptStr gamePlain.homeTeam = false ∧
    pyFalsyOptStr gamePlain.awayTeam = false ∧ gamePlain.homeScore.isSome ∧
    gamePlain.awayScore.isSome :=
  c5_required_fields_always_present.1 envIdle blockPlain 2020 gamePlain (by decide)

/-- Helper for C9: the extractor's basics phase rejects a block whose
teams table lacks a winner row or a loser row. -/
theorem extractBasics_none_of_missing_rows (block tt : Node)
    (h1 : findTeamsTable block = some tt)
    (h2 : findWinnerRow tt = none ∨ findLoserRow tt = none) :
    extractBasics block = none := by
  unfold extractBasics
  rw [h1]
  dsimp only
  rcases h2 with h | h
  · rw [h]
  · cases hw : findWinnerRow tt with
    | none => rfl
    | some wr => rw [h]

/-- Helper for C9: the basics phase rejects a block whose winner row
has a missing or unparseable score cell. -/
theorem extractBasics_none_of_bad_winner_score (block tt wr : Node)
    (h1 : findTeamsTable block = some tt)
    (h2 : findWinnerRow tt = some wr)
    (h3 : scoreBad wr) :
    extractBasics block = none := by
  unfold extractBasics
  rw [h1]
  dsimp only
  rw [h2]
  cases hl : findLoserRow tt with
  | none => rfl
  | some lr =>
    dsimp only
    cases htl : teamLinkOf wr with
    | none => rfl
    | some wl =>
      unfold scoreBad at h3
      cases hsc : scoreCellOf wr with
      | none => rfl
      | some wc =>
        rw [hsc] at h3
        dsimp only
        rw [h3]

/-- Helper for C9: likewise for the loser row's score cell. -/
theorem extractBasics_none_of_bad_loser_score (block tt lr : Node)
    (h1 : findTeamsTable block = some tt)
    (h2 : findLoserRow tt = some lr)
    (h3 : scoreBad lr) :
    extractBasics block = none := by
  unfold extractBasics
  rw [h1]
  dsimp only
  cases hw : findWinnerRow tt with
  | none => rfl
  | some wr =>
    rw [h2]
    dsimp only
    cases htl : teamLinkOf wr with
    | none => rfl
    | some wl =>
      cases hsc : scoreCellOf wr with
      | none => rfl
      | some wc =>
        dsimp only
        cases hps : pyParseInt (pyStrip (getTextN wc)) with
        | none => rfl
        | some ws =>
          dsimp only
          cases htll : teamLinkOf lr with
          | none => rfl
          | some ll =>
            unfold scoreBad at h3
            cases hscl : scoreCellOf lr with
            | none => rfl
            | some lc =>
              rw [hscl] at h3
              dsimp only
              rw [h3]

/-- Helper for C9/C5: a block rejected by the basics phase produces no
record and no effects. -/
theorem parse_none_of_basics_none (env : Env) (block : Node) (year : Int)
    (h : extractBasics block = none) :
    parseGameSummary env block year = (none, []) := by
  unfold parseGameSummary
  rw [h]

/-- C9: a game summary block whose teams table lacks the winner or the
loser row, or whose winner/loser score cell is missing or fails integer
parsing, is dropped whole — the extractor yields `none` and no record
with null scores is produced. -/
theorem c9_extractor_rejects_malformed_blocks :
    (∀ (env : Env) (block : Node) (year : Int) (tt : Node),
        findTeamsTable block = some tt →
        (findWinnerRow tt = none ∨ findLoserRow tt = none) →
        (parseGameSummary env block year).1 = none) ∧
    (∀ (env : Env) (block : Node) (year : Int) (tt wr : Node),
        findTeamsTable block = some tt → findWinnerRow tt = some wr → scoreBad wr →
        (parseGameSummary env block year).1 = none) ∧
    (∀ (env : Env) (block : Node) (year : Int) (tt lr : Node),
        findTeamsTable block = some tt → findLoserRow tt = some lr → scoreBad lr →
        (parseGameSummary env block year).1 = none) := by
  refine ⟨?_, ?_, ?_⟩
  · intro env block year tt h1 h2
    rw [parse_none_of_basics_none env block year
      (extractBasics_none_of_missing_rows block tt h1 h2)]
  · intro env block year tt wr h1 h2 h3
    rw [parse_none_of_basics_none env block year
      (extractBasics_none_of_bad_winner_score block tt wr h1 h2 h3)]
  · intro env block year tt lr h1 h2 h3
    rw [parse_none_of_basics_none env block year
      (extractBasics_none_of_bad_loser_score block tt lr h1 h2 h3)]

/-- C9 witness. -/
theorem c9_extractor_rejects_witness :
    (parseGameSummary envIdle blockNoWinner 2020).1 = none :=
  c9_extractor_rejects_malformed_blocks.1 envIdle blockNoWinner 2020 ttNoWinner rfl
    (Or.inl rfl)

/-- Helper for C7: when the boxscore fetch raises a transport error,
the stats stage leaves every stat local at `None` (the exception is
caught at line 334). -/
theorem statsStage_fst_transport (env : Env) (u m : String)
    (hf : env.fetch u = FetchSim.transport m) :
    (statsStage env (some u)).1 = emptyStats := by
  unfold statsStage
  dsimp only
  split
  · rfl
  · rw [hf]

/-- Helper for C7: both robots branches of `fetch_week_games` return no
games when the week fetch raises. -/
theorem fetchWeekGames_fst_transport (env : Env) (url : String) (y : Int) (m : String)
    (hf : env.fetch url = FetchSim.transport m) :
    (fetchWeekGames env url y).1 = [] := by
  unfold fetchWeekGames
  dsimp only
  split
  · rfl
  · rw [hf]

/-- C7: a transport error on the week-page fetch makes the run abort
with no output (`main` returns before writing anything), while the same
error on a single boxscore fetch is swallowed — the affected game, when
its required fields are intact, is still emitted with all four yardage
fields null.  The closed third part runs a two-game week in which the
first game's boxscore fetch raises: its record is kept with null
yardage and the second game is still processed. -/
theorem c7_transport_error_scopes :
    (∀ (env : Env) (y : Int) (w m : String),
        validWeek w = true →
        env.fetch (mainWeekUrl y w) = FetchSim.transport m →
        mainRun env y w = none) ∧
    (∀ (env : Env) (block : Node) (y : Int) (b : Basics) (u m : String),
        extractBasics block = some b →
        (homeAwaySection b).2.2.2.2 = some u →
        env.fetch u = FetchSim.transport m →
        ((parseGameSummary env block y).1 = none ∨
          ∃ g, (parseGameSummary env block y).1 = some g ∧ g.homeRushing = none ∧
            g.awayRushing = none ∧ g.homePassing = none ∧ g.awayPassing = none)) ∧
    mainRun envBoxTransport 2023 "1" = some [gamePlain, gameKCnull] := by
  refine ⟨?_, ?_, by decide⟩
  · intro env y w m hv hf
    have hempty : (fetchWeekGames env (mainWeekUrl y w) y).1 = [] :=
      fetchWeekGames_fst_transport env (mainWeekUrl y w) y m hf
    simp [mainRun, hv, hempty]
  · intro env block y b u m hb hu hf
    have hst : (statsStage env (homeAwaySection b).2.2.2.2).1 = emptyStats := by
      rw [hu]; exact statsStage_fst_transport env u m hf
    unfold parseGameSummary
    rw [hb]
    dsimp only
    split
    · exact Or.inl rfl
    · exact Or.inr ⟨_, rfl, by simp [hst, emptyStats], by simp [hst, emptyStats],
        by simp [hst, emptyStats], by simp [hst, emptyStats]⟩

/-- C7 witness. -/
theorem c7_transport_error_scopes_witness : mainRun envWeekTransport 2023 "1" = none :=
  c7_transport_error_scopes.1 envWeekTransport 2023 "1" "connection reset" (by decide) rfl

/-- C4 counterexample: a run over a one-game week issues TWO robots
fetches (one for the week page, one for the boxscore), because
`check_robots_txt` constructs a fresh parser and reads the robots
resource on every call — not once per gate lifetime. -/
theorem c4_counterexample :
    robotsCount (fetchWeekGames envFull weekUrl2023w1 2023).2 = 2 ∧ (2 : Nat) ≠ 1 := by
  decide

/-- Helper for C4: the stats stage issues exactly one robots fetch when
the block carries a boxscore URL, none otherwise. -/
theorem statsStage_robots_count (env : Env) (gu : Option String) :
    robotsCount (statsStage env gu).2 = if gu.isSome then 1 else 0 := by
  cases gu with
  | none => rfl
  | some u =>
    unfold statsStage
    dsimp only
    split
    · rfl
    · cases hf : env.fetch u <;> rfl

/-- Helper for C4: one parsed block accounts for exactly one robots
fetch when it has a boxscore link. -/
theorem parse_robots_count (env : Env) (blk : Node) (y : Int) :
    robotsCount (parseGameSummary env blk y).2 = if blockHasBoxUrl blk then 1 else 0 := by
  unfold parseGameSummary blockHasBoxUrl
  cases hb : extractBasics blk with
  | none => rfl
  | some b =>
    dsimp only
    split
    · exact statsStage_robots_count env (homeAwaySection b).2.2.2.2
    · exact statsStage_robots_count env (homeAwaySection b).2.2.2.2

/-- Helper for C4: the per-block loop issues one robots fetch per
boxscore-linked block. -/
theorem loop_robots_count (env : Env) (y : Int) :
    ∀ blocks : List Node,
      robotsCount (parseBlocksLoop env y blocks).2 = blocks.countP blockHasBoxUrl := by
  intro blocks
  induction blocks with
  | nil => rfl
  | cons blk rest ih =>
    unfold parseBlocksLoop
    dsimp only
    cases hp : (parseGameSummary env blk y).1 with
    | some g =>
      simp only [robotsCount, List.count_append, List.countP_cons]
      rw [show (parseGameSummary env blk y).2.count Effect.robotsFetch =
            robotsCount (parseGameSummary env blk y).2 from rfl,
          parse_robots_count env blk y,
          show (parseBlocksLoop env y rest).2.count Effect.robotsFetch =
            robotsCount (parseBlocksLoop env y rest).2 from rfl, ih]
      omega
    | none =>
      simp only [robotsCount, List.count_append, List.countP_cons]
      rw [show (parseGameSummary env blk y).2.count Effect.robotsFetch =
            robotsCount (parseGameSummary env blk y).2 from rfl,
          parse_robots_count env blk y,
          show (parseBlocksLoop env y rest).2.count Effect.robotsFetch =
            robotsCount (parseBlocksLoop env y rest).2 from rfl, ih]
      omega

/-- C4 (amended): the robots resource is fetched once per
`check_robots_txt` call, not once per gate lifetime: a successful crawl
of a week page issues one robots fetch for the week page plus one per
parsed game block carrying a boxscore link. -/
theorem c4_robots_fetch_per_query (env : Env) (url : String) (y : Int) (soup : Node)
    (hr : robotsDecision env (pyReplaceEmpty pfrBaseUrl url) = true)
    (hf : env.fetch url = FetchSim.page soup) :
    robotsCount (fetchWeekGames env url y).2 =
      1 + (extractGameBlocks soup).countP blockHasBoxUrl := by
  unfold fetchWeekGames
  dsimp only [checkRobotsTxt]
  rw [hr]
  simp only [Bool.not_true, Bool.false_eq_true, if_false]
  rw [hf]
  have h1 : (Effect.robotsFetch == Effect.robotsFetch) = true := rfl
  have h2 : (Effect.pageFetch url == Effect.robotsFetch) = false := rfl
  simp only [robotsCount, List.count_append, List.count_cons, List.count_nil, h1, h2,
    if_true, Bool.false_eq_true, if_false]
  rw [show (parseBlocksLoop env y (extractGameBlocks soup)).2.count Effect.robotsFetch =
        robotsCount (parseBlocksLoop env y (extractGameBlocks soup)).2 from rfl,
      loop_robots_count env y (extractGameBlocks soup)]

/-- C4 witness. -/
theorem c4_robots_fetch_per_query_witness :
    robotsCount (fetchWeekGames envFull weekUrl2023w1 2023).2 =
      1 + (extractGameBlocks pageOneGame).countP blockHasBoxUrl :=
  c4_robots_fetch_per_query envFull weekUrl2023w1 2023 pageOneGame (by decide) rfl
